import Mathlib

/-!
Verification of the sorobandomains-sdk node-derivation and operation layer
(`src/sdk.ts`).  The hashing primitive used by the SDK is Keccak-256 (from the
js-sha3 package); it is implemented here concretely so that every definition is
executable.  Machine words are `Nat` reduced modulo `2 ^ 64`.
-/

/-- 64-bit mask, `2 ^ 64 - 1`. -/
def mask64 : Nat := 18446744073709551615

/-- Left-rotation of a 64-bit word represented as a `Nat`. -/
def rotl64 (x n : Nat) : Nat :=
  ((x <<< n) ||| (x >>> (64 - n))) &&& mask64

/-- Lane read with default 0 (the Keccak state is a flat list of 25 lanes,
index `x + 5 * y`). -/
def lane (s : List Nat) (i : Nat) : Nat := s.getD i 0

/-- Keccak round constants (24 rounds of Keccak-f[1600]). -/
def keccakRC : List Nat :=
  [0x0000000000000001, 0x0000000000008082, 0x800000000000808a, 0x8000000080008000,
   0x000000000000808b, 0x0000000080000001, 0x8000000080008081, 0x8000000000008009,
   0x000000000000008a, 0x0000000000000088, 0x0000000080008009, 0x000000008000000a,
   0x000000008000808b, 0x800000000000008b, 0x8000000000008089, 0x8000000000008003,
   0x8000000000008002, 0x8000000000000080, 0x000000000000800a, 0x800000008000000a,
   0x8000000080008081, 0x8000000000008080, 0x0000000080000001, 0x8000000080008008]

/-- Combined rho-and-pi step data: entry at destination index `j` is the
source index and rotation amount feeding lane `j`. -/
def rhoPiSrc : List (Nat × Nat) :=
  [(0, 0), (6, 44), (12, 43), (18, 21), (24, 14),
   (3, 28), (9, 20), (10, 3), (16, 45), (22, 61),
   (1, 1), (7, 6), (13, 25), (19, 8), (20, 18),
   (4, 27), (5, 36), (11, 10), (17, 15), (23, 56),
   (2, 62), (8, 55), (14, 39), (15, 41), (21, 2)]

/-- Theta step of Keccak-f. -/
def theta (A : List Nat) : List Nat :=
  let C := (List.range 5).map fun x =>
    lane A x ^^^ lane A (x + 5) ^^^ lane A (x + 10) ^^^ lane A (x + 15) ^^^ lane A (x + 20)
  let D := (List.range 5).map fun x =>
    lane C ((x + 4) % 5) ^^^ rotl64 (lane C ((x + 1) % 5)) 1
  (List.range 25).map fun i => lane A i ^^^ lane D (i % 5)

/-- Rho and pi steps of Keccak-f. -/
def rhoPi (A : List Nat) : List Nat :=
  rhoPiSrc.map fun p => rotl64 (lane A p.1) p.2

/-- Chi step of Keccak-f. -/
def chi (B : List Nat) : List Nat :=
  (List.range 25).map fun i =>
    let x := i % 5
    let y := i / 5
    lane B i ^^^ ((mask64 ^^^ lane B ((x + 1) % 5 + 5 * y)) &&& lane B ((x + 2) % 5 + 5 * y))

/-- Iota step of Keccak-f: fold the round constant into lane 0. -/
def iota (rc : Nat) (A : List Nat) : List Nat :=
  (rc ^^^ lane A 0) :: A.drop 1

/-- One full Keccak-f[1600] permutation (24 rounds). -/
def keccakF (A : List Nat) : List Nat :=
  keccakRC.foldl (fun s rc => iota rc (chi (rhoPi (theta s)))) A

/-- Keccak pad10*1 padding with domain byte 0x01 (Keccak-256 as used by
js-sha3, not the SHA-3 0x06 variant); rate is 136 bytes. -/
def keccakPad (msg : List Nat) : List Nat :=
  let p := 136 - msg.length % 136
  if p = 1 then msg ++ [0x81]
  else msg ++ 0x01 :: List.replicate (p - 2) 0 ++ [0x80]

/-- Little-endian interpretation of (up to eight) bytes as one 64-bit lane. -/
def bytesToLane (bs : List Nat) : Nat :=
  bs.foldr (fun b acc => acc * 256 + b) 0

/-- Interpret a 136-byte rate block as 17 lanes. -/
def blockLanes (block : List Nat) : List Nat :=
  (List.range 17).map fun i => bytesToLane ((block.drop (8 * i)).take 8)

/-- Absorb one rate block into the state and permute. -/
def absorbBlock (s block : List Nat) : List Nat :=
  let lanes := blockLanes block
  keccakF ((List.range 25).map fun i => lane s i ^^^ lane lanes i)

/-- Absorb all blocks of the (padded) message; fuel-driven structural
recursion so the definition reduces in the kernel. -/
def absorbAux : Nat → List Nat → List Nat → List Nat
  | 0, s, _ => s
  | fuel + 1, s, msg =>
    if msg.isEmpty then s
    else absorbAux fuel (absorbBlock s (msg.take 136)) (msg.drop 136)

/-- Keccak-256 digest of a byte sequence: pad, absorb, and squeeze the first
32 output bytes (little-endian from the first four lanes). -/
def keccak256 (msg : List Nat) : List Nat :=
  let padded := keccakPad msg
  let final := absorbAux (padded.length / 136 + 1) (List.replicate 25 0) padded
  (List.range 32).map fun i => (lane final (i / 8) >>> (8 * (i % 8))) &&& 255

/-- The sixteen lowercase hexadecimal digit characters. -/
def hexDigits : List Char := "0123456789abcdef".data

/-- Character for one hex nibble. -/
def hexChar (n : Nat) : Char := hexDigits.getD n '0'

/-- Lowercase hex character sequence of a byte sequence (two characters per
byte, no prefix). -/
def hexCharsOf : List Nat → List Char
  | [] => []
  | b :: rest => hexChar (b / 16) :: hexChar (b % 16) :: hexCharsOf rest

/-- Lowercase hex string of a byte sequence, as produced by the js-sha3
`hex()` finalizer and by `Buffer.toString` with hex encoding. -/
def bytesToHex (bs : List Nat) : String := String.mk (hexCharsOf bs)

/-- Numeric value of one hex character (lowercase or uppercase), 0 for
anything else (the inputs fed to it by the SDK are valid hex). -/
def hexCharVal (c : Char) : Nat :=
  if '0' ≤ c ∧ c ≤ '9' then c.toNat - 48
  else if 'a' ≤ c ∧ c ≤ 'f' then c.toNat - 87
  else if 'A' ≤ c ∧ c ≤ 'F' then c.toNat - 55
  else 0

/-- Byte sequence parsed from hex character pairs, as `Buffer.from(s, hex)`
does on the well-formed hex strings the SDK produces. -/
def hexPairsToBytes : List Char → List Nat
  | c1 :: c2 :: rest => (hexCharVal c1 * 16 + hexCharVal c2) :: hexPairsToBytes rest
  | _ => []

/-- Byte sequence of a hex string. -/
def hexToBytes (s : String) : List Nat := hexPairsToBytes s.data

/-- UTF-8 bytes of one Unicode code point (js-sha3 encodes string input to
UTF-8, combining surrogate pairs into the code point first). -/
def charUtf8 (c : Char) : List Nat :=
  let n := c.toNat
  if n < 0x80 then [n]
  else if n < 0x800 then [0xc0 ||| (n >>> 6), 0x80 ||| (n &&& 0x3f)]
  else if n < 0x10000 then
    [0xe0 ||| (n >>> 12), 0x80 ||| ((n >>> 6) &&& 0x3f), 0x80 ||| (n &&& 0x3f)]
  else
    [0xf0 ||| (n >>> 18), 0x80 ||| ((n >>> 12) &&& 0x3f),
     0x80 ||| ((n >>> 6) &&& 0x3f), 0x80 ||| (n &&& 0x3f)]

/-- UTF-8 byte sequence of a string. -/
def utf8Bytes (s : String) : List Nat :=
  s.data.foldr (fun c acc => charUtf8 c ++ acc) []

/-- Streaming Keccak-256 hasher as exposed by js-sha3: `create` starts an
empty accumulator, each update feeds more input, and finalizing digests the
concatenation of everything fed in. -/
structure Hasher where
  buf : List Nat

/-- Fresh hasher (js-sha3 `keccak256.create()`). -/
def Hasher.create : Hasher := ⟨[]⟩

/-- Feed raw bytes (js-sha3 `update` on an array-like input). -/
def Hasher.updateBytes (h : Hasher) (bs : List Nat) : Hasher := ⟨h.buf ++ bs⟩

/-- Feed a string (js-sha3 `update` encodes string input as UTF-8). -/
def Hasher.updateStr (h : Hasher) (s : String) : Hasher := ⟨h.buf ++ utf8Bytes s⟩

/-- Finalize to the 32 digest bytes (js-sha3 `digest()`). -/
def Hasher.digest (h : Hasher) : List Nat := keccak256 h.buf

/-- Finalize to the lowercase hex string (js-sha3 `hex()`). -/
def Hasher.hex (h : Hasher) : String := bytesToHex (keccak256 h.buf)

/-- JavaScript truthiness of the optional sub-domain string: `undefined` and
the empty string are falsy. -/
def truthyOptStr : Option String → Bool
  | none => false
  | some s => !(s == "")

/-- Parameter object of `parseDomain`. -/
structure ParseDomainParams where
  domain : String
  subDomain : Option String := none

/-- Embedding of `SorobanDomainsSDK.parseDomain` (src/sdk.ts lines 14-30):
derive the node of a domain, and of a sub-domain when one is (truthily)
given. -/
def parseDomain (params : ParseDomainParams) : String :=
  let record : Hasher :=
    (Hasher.create.updateBytes
      ((Hasher.create.updateStr "xlm").digest)).updateBytes
      ((Hasher.create.updateStr params.domain).digest)
  if truthyOptStr params.subDomain then
    let subRecord : Hasher :=
      (Hasher.create.updateBytes
        ((Hasher.create.updateBytes record.digest).digest)).updateBytes
        ((Hasher.create.updateStr (params.subDomain.getD "")).digest)
    subRecord.hex
  else
    record.hex

/-- Soroban smart-contract values, as built by the SDK through the stellar
SDK constructors it calls (`scvBytes`, `scvSymbol`, `scvVec`, `scvString`,
and `nativeToScVal` with the i128 type). -/
inductive ScVal where
  | scvBytes (bs : List Nat)
  | scvSymbol (s : String)
  | scvVec (xs : List ScVal)
  | scvString (s : String)
  | scvI128 (n : Int)

/-- JavaScript values produced by `scValToNative` decoding of a simulated
return value: the shapes relevant to the SDK (buffers for byte values,
bigints for the large integers, strings, arrays for enum-like vectors,
plain objects for structs), plus the primitive values needed to express
JavaScript truthiness. -/
inductive JsValue where
  | jsUndefined
  | jsNull
  | jsBool (b : Bool)
  | jsNumber (n : Int)
  | jsBigInt (n : Int)
  | jsString (s : String)
  | jsBuffer (bytes : List Nat)
  | jsArray (elems : List JsValue)
  | jsObject (fields : List (String × JsValue))
deriving Repr

/-- JavaScript falsiness: `undefined`, `null`, `false`, numeric zero and the
empty string are falsy; every object (buffer, array, plain object) is
truthy. -/
def jsFalsy : JsValue → Bool
  | .jsUndefined => true
  | .jsNull => true
  | .jsBool b => !b
  | .jsNumber n => n == 0
  | .jsBigInt n => n == 0
  | .jsString s => s == ""
  | .jsBuffer _ => false
  | .jsArray _ => false
  | .jsObject _ => false

/-- JavaScript indexing `v[i]` for the values above: array element (or
`undefined` out of range), single-character string for string indexing,
byte value for buffer indexing, string-keyed property for objects, and
`undefined` on the remaining primitives. -/
def jsIndex (v : JsValue) (i : Nat) : JsValue :=
  match v with
  | .jsArray xs => xs.getD i .jsUndefined
  | .jsString s =>
    match s.data.get? i with
    | some c => .jsString (String.mk [c])
    | none => .jsUndefined
  | .jsBuffer bs =>
    match bs.get? i with
    | some b => .jsNumber (Int.ofNat b)
    | none => .jsUndefined
  | .jsObject fields => ((fields.lookup (Nat.repr i)).getD .jsUndefined)
  | _ => .jsUndefined

/-- JavaScript strict equality of a value against the string literal
Domain: only a string of that exact content compares equal. -/
def strictEqDomainTag : JsValue → Bool
  | .jsString s => s == "Domain"
  | _ => false

/-- Errors the SDK operations can reject with.  The error classes live in
the repository file src/errors.ts, which is not part of the provided
source; they are modelled from the spec error taxonomy: plain
`new Error(msg)` throws carry their message, `Domain404Error` is
DomainNotFound, `DomainData404Error` is DomainDataNotFound, and
`DomainDataUnsupportedValueType` is UnsupportedValueType.  `jsTypeError`
models the implicit JavaScript TypeError raised by property access on
`null`/`undefined` or by converting a value of an unexpected shape. -/
inductive SdkError where
  | errorMsg (msg : String)
  | domain404
  | domainData404
  | unsupportedValueType
  | jsTypeError
deriving DecidableEq, Repr

/-- Record-key symbols.  Modelled from the spec: `RecordKey` is declared in
the repository file src/types.ts, which is not part of the provided source;
the spec describes it as an enumeration of exactly two symbols, `Record`
and `SubRecord`. -/
inductive RecordKey where
  | Record
  | SubRecord
deriving DecidableEq, Repr

/-- Symbol string of a record key.  Modelled from the spec: the concrete
enum strings live in src/types.ts (not provided); the spec names the two
symbols `Record` and `SubRecord`. -/
def recordKeyStr : RecordKey → String
  | .Record => "Record"
  | .SubRecord => "SubRecord"

/-- Domain-variant lookup result (the object literal built at src/sdk.ts
lines 77-87): byte fields hex-encoded, integer fields stringified, the
address passed through unconverted. -/
structure DomainRec where
  node : String
  owner : String
  address : JsValue
  exp_date : String
  snapshot : String
  collateral : String

/-- SubDomain-variant lookup result (src/sdk.ts lines 89-97). -/
structure SubDomainRec where
  node : String
  parent : String
  address : JsValue
  snapshot : String

/-- Tagged lookup result of `searchDomain` (RecordType.Domain or
RecordType.SubDomain). -/
inductive RecordOut where
  | domain (d : DomainRec)
  | subDomain (s : SubDomainRec)

/-- SDK configuration (`SorobanDomainsSDKParams`), the fields `searchDomain`
and the storage operations read.  The contract identifiers are optional
strings, matching the falsy guards in the source; the RPC and stellar-SDK
handles are modelled by `RpcEnv` below. -/
structure SorobanDomainsSDKParams where
  vaultsContractId : Option String := none
  valuesDatabaseContractId : Option String := none
  simulationAccount : String := ""
  network : String := ""
  defaultFee : String := ""
  defaultTimeout : Option Nat := none

/-- One contract invocation operation (`contract.call(fn, args)`). -/
structure ContractCall where
  contractId : String
  fn : String
  args : List ScVal

/-- The transaction the SDK builds before simulating: network passphrase,
fee, timeout (`defaultTimeout or 0`) and the single contract-call
operation. -/
structure BuiltTx where
  networkPassphrase : String
  fee : String
  timeout : Nat
  op : ContractCall

/-- RPC interactions an operation performs, in order. -/
inductive RpcCall where
  | getAccount (accountId : String)
  | simulateTransaction (tx : BuiltTx)

/-- Outcome of `rpc.simulateTransaction` as the SDK observes it: either the
simulation-error case (`isSimulationError`, carrying `sim.error`), or a
successful simulation whose return value decodes through `scValToNative`
to the given native value. -/
inductive SimResponse where
  | simError (msg : String)
  | simSuccess (native : JsValue)

/-- External collaborators (RPC client and stellar SDK) modelled as an
environment: the simulation outcome the network would report for the
operation's single simulated transaction. -/
structure RpcEnv where
  simResponse : SimResponse

/-- Transaction assembly helper shared by all four operations
(TransactionBuilder with the configured passphrase and fee, timeout
`defaultTimeout or 0`, one contract-call operation). -/
def mkTx (cfg : SorobanDomainsSDKParams) (cid fn : String) (args : List ScVal) : BuiltTx :=
  { networkPassphrase := cfg.network
    fee := cfg.defaultFee
    timeout := cfg.defaultTimeout.getD 0
    op := { contractId := cid, fn := fn, args := args } }

/-- Property access `v.name` returning `undefined` for a missing field, and
the JavaScript TypeError on `null`/`undefined` bases. -/
def jsGetFieldE (v : JsValue) (name : String) : Except SdkError JsValue :=
  match v with
  | .jsUndefined => .error .jsTypeError
  | .jsNull => .error .jsTypeError
  | .jsObject fields => .ok ((fields.lookup name).getD .jsUndefined)
  | _ => .ok .jsUndefined

/-- Buffer hex rendering `v.toString(hex)`: defined on buffers, a TypeError
on the shapes the decoder never produces for a byte field. -/
def bufToHexE : JsValue → Except SdkError String
  | .jsBuffer bs => .ok (bytesToHex bs)
  | _ => .error .jsTypeError

/-- Decimal rendering `v.toString()` for the integer-like fields (bigints
and numbers as produced by `scValToNative`; strings and booleans stringify
to themselves), a TypeError otherwise. -/
def decimalToStringE : JsValue → Except SdkError String
  | .jsBigInt n => .ok (toString n)
  | .jsNumber n => .ok (toString n)
  | .jsString s => .ok s
  | .jsBool b => .ok (toString b)
  | _ => .error .jsTypeError

/-- Decoding of the simulated `record` return value (src/sdk.ts lines
70-98): a falsy decoded value raises Domain404Error; a first element
strictly equal to the string Domain yields the Domain variant, any other
first element the SubDomain variant. -/
def decodeRecordResult (result : JsValue) : Except SdkError RecordOut :=
  if jsFalsy result then .error .domain404
  else if strictEqDomainTag (jsIndex result 0) then do
    let fields := jsIndex result 1
    let node ← jsGetFieldE fields "node" >>= bufToHexE
    let owner ← jsGetFieldE fields "owner" >>= bufToHexE
    let address ← jsGetFieldE fields "address"
    let exp_date ← jsGetFieldE fields "exp_date" >>= decimalToStringE
    let snapshot ← jsGetFieldE fields "snapshot" >>= decimalToStringE
    let collateral ← jsGetFieldE fields "collateral" >>= decimalToStringE
    .ok (.domain { node, owner, address, exp_date, snapshot, collateral })
  else do
    let fields := jsIndex result 1
    let node ← jsGetFieldE fields "node" >>= bufToHexE
    let parent ← jsGetFieldE fields "parent" >>= bufToHexE
    let address ← jsGetFieldE fields "address"
    let snapshot ← jsGetFieldE fields "snapshot" >>= decimalToStringE
    .ok (.subDomain { node, parent, address, snapshot })

/-- Embedding of `searchDomain` (src/sdk.ts lines 36-99), returning the
operation outcome together with the ordered trace of RPC interactions it
performed.  The missing-configuration guard is the falsy test
`!this.global.vaultsContractId`. -/
def searchDomain (cfg : SorobanDomainsSDKParams) (env : RpcEnv)
    (params : ParseDomainParams) : Except SdkError RecordOut × List RpcCall :=
  match cfg.vaultsContractId with
  | none => (.error (.errorMsg "Vault\x27s contract id was not provided"), [])
  | some cid =>
    if cid = "" then (.error (.errorMsg "Vault\x27s contract id was not provided"), [])
    else
      let domainNode := parseDomain params
      let nodeBytes := ScVal.scvBytes (hexToBytes domainNode)
      let record_key := ScVal.scvVec
        [ScVal.scvSymbol
          (recordKeyStr (if truthyOptStr params.subDomain then .SubRecord else .Record)),
         nodeBytes]
      let tx := mkTx cfg cid "record" [record_key]
      let trace := [RpcCall.getAccount cfg.simulationAccount, RpcCall.simulateTransaction tx]
      match env.simResponse with
      | .simError msg => (.error (.errorMsg msg), trace)
      | .simSuccess native => (decodeRecordResult native, trace)

/-- Embedding of `getDomainData` (src/sdk.ts lines 101-133): simulate a
`get(node, key)` call on the key/value contract; a falsy decoded value
raises DomainData404Error, otherwise the decoded value is returned
unchanged. -/
def getDomainData (cfg : SorobanDomainsSDKParams) (env : RpcEnv)
    (node key : String) : Except SdkError JsValue × List RpcCall :=
  match cfg.valuesDatabaseContractId with
  | none => (.error (.errorMsg "KeyValue Database contract id was not provided"), [])
  | some cid =>
    if cid = "" then (.error (.errorMsg "KeyValue Database contract id was not provided"), [])
    else
      let tx := mkTx cfg cid "get" [ScVal.scvBytes (hexToBytes node), ScVal.scvSymbol key]
      let trace := [RpcCall.getAccount cfg.simulationAccount, RpcCall.simulateTransaction tx]
      match env.simResponse with
      | .simError msg => (.error (.errorMsg msg), trace)
      | .simSuccess native =>
        (if jsFalsy native then .error .domainData404 else .ok native, trace)

/-- Encoding of a `DomainStorageValue` (src/sdk.ts lines 148-172): the value
is a discriminant string with a payload; Bytes, Number (as an i128, with
the stellar-SDK range check on `nativeToScVal`) and String are wire-encoded
as two-element vectors, and every other discriminant raises
DomainDataUnsupportedValueType. -/
def encodeStorageValue (value : String × JsValue) : Except SdkError ScVal :=
  if value.1 = "Bytes" then
    match value.2 with
    | .jsBuffer bs => .ok (.scvVec [.scvSymbol "Bytes", .scvBytes bs])
    | _ => .error .jsTypeError
  else if value.1 = "Number" then
    match value.2 with
    | .jsBigInt n =>
      if -(2 ^ 127) ≤ n ∧ n < 2 ^ 127 then .ok (.scvVec [.scvSymbol "Number", .scvI128 n])
      else .error .jsTypeError
    | .jsNumber n =>
      if -(2 ^ 127) ≤ n ∧ n < 2 ^ 127 then .ok (.scvVec [.scvSymbol "Number", .scvI128 n])
      else .error .jsTypeError
    | _ => .error .jsTypeError
  else if value.1 = "String" then
    match value.2 with
    | .jsString s => .ok (.scvVec [.scvSymbol "String", .scvString s])
    | _ => .error .jsTypeError
  else .error .unsupportedValueType

/-- Embedding of `setDomainData` (src/sdk.ts lines 135-194): encode the
value (rejecting unsupported discriminants before any RPC call), simulate a
`set(node, key, value)` call with the caller-supplied source account, and
on success return the transaction to assemble together with the simulation
response. -/
def setDomainData (cfg : SorobanDomainsSDKParams) (env : RpcEnv)
    (node key : String) (value : String × JsValue) (source : String) :
    Except SdkError (BuiltTx × JsValue) × List RpcCall :=
  match cfg.valuesDatabaseContractId with
  | none => (.error (.errorMsg "KeyValue Database contract id was not provided"), [])
  | some cid =>
    if cid = "" then (.error (.errorMsg "KeyValue Database contract id was not provided"), [])
    else
      match encodeStorageValue value with
      | .error e => (.error e, [])
      | .ok scv =>
        let tx := mkTx cfg cid "set"
          [ScVal.scvBytes (hexToBytes node), ScVal.scvSymbol key, scv]
        let trace := [RpcCall.getAccount source, RpcCall.simulateTransaction tx]
        match env.simResponse with
        | .simError msg => (.error (.errorMsg msg), trace)
        | .simSuccess native => (.ok (tx, native), trace)

/-- Embedding of `removeDomainData` (src/sdk.ts lines 196-228): simulate a
`remove(node, key)` call with the caller-supplied source account. -/
def removeDomainData (cfg : SorobanDomainsSDKParams) (env : RpcEnv)
    (node key : String) (source : String) :
    Except SdkError (BuiltTx × JsValue) × List RpcCall :=
  match cfg.valuesDatabaseContractId with
  | none => (.error (.errorMsg "KeyValue Database contract id was not provided"), [])
  | some cid =>
    if cid = "" then (.error (.errorMsg "KeyValue Database contract id was not provided"), [])
    else
      let tx := mkTx cfg cid "remove" [ScVal.scvBytes (hexToBytes node), ScVal.scvSymbol key]
      let trace := [RpcCall.getAccount source, RpcCall.simulateTransaction tx]
      match env.simResponse with
      | .simError msg => (.error (.errorMsg msg), trace)
      | .simSuccess native => (.ok (tx, native), trace)

/-- Concrete configuration with both contract identifiers present, for
witness instantiations. -/
def cfgBoth : SorobanDomainsSDKParams :=
  { vaultsContractId := some "CV"
    valuesDatabaseContractId := some "CK"
    simulationAccount := "GSIM"
    network := "Test SDF Network ; September 2015"
    defaultFee := "100"
    defaultTimeout := some 30 }

/-- Concrete configuration with both contract identifiers absent. -/
def cfgNone : SorobanDomainsSDKParams := { simulationAccount := "GSIM" }

/-- Environment whose simulation succeeds and decodes to the given value. -/
def envOf (v : JsValue) : RpcEnv := ⟨.simSuccess v⟩

/-- Environment whose simulation reports an error. -/
def envErr (m : String) : RpcEnv := ⟨.simError m⟩

theorem hexChar_mem (n : Nat) : hexChar n ∈ hexDigits := by
  by_cases h : n < 16
  · interval_cases n <;> decide
  · have h16 : hexDigits.length ≤ n := by
      simp only [hexDigits, List.length]
      omega
    unfold hexChar
    rw [List.getD_eq_default _ _ h16]
    decide

theorem hexCharsOf_mem : ∀ {bs : List Nat} {c : Char}, c ∈ hexCharsOf bs → c ∈ hexDigits := by
  intro bs
  induction bs with
  | nil => intro c hc; simp [hexCharsOf] at hc
  | cons b rest ih =>
    intro c hc
    simp only [hexCharsOf, List.mem_cons] at hc
    rcases hc with h | h | h
    · exact h ▸ hexChar_mem _
    · exact h ▸ hexChar_mem _
    · exact ih h

theorem hexCharsOf_length (bs : List Nat) : (hexCharsOf bs).length = 2 * bs.length := by
  induction bs with
  | nil => simp [hexCharsOf]
  | cons b rest ih => simp [hexCharsOf, ih]; ring

theorem keccak256_length (msg : List Nat) : (keccak256 msg).length = 32 := by
  simp [keccak256]

theorem parseDomain_root (d : String) :
    parseDomain { domain := d } =
      bytesToHex (keccak256 (keccak256 (utf8Bytes "xlm") ++ keccak256 (utf8Bytes d))) := by
  simp [parseDomain, truthyOptStr, Hasher.create, Hasher.updateBytes, Hasher.updateStr,
        Hasher.digest, Hasher.hex]

/-- C1: for every domain string (the empty string included), `parseDomain`
with no sub-domain returns the Keccak-256 digest of the digest of xlm
followed by the digest of the domain, hex-encoded with no prefix (64
characters), every character a lowercase hex digit; the function is total,
so no input raises an error. -/
theorem parseDomain_rootDigest_spec (d : String) :
    parseDomain { domain := d } =
      bytesToHex (keccak256 (keccak256 (utf8Bytes "xlm") ++ keccak256 (utf8Bytes d))) ∧
    (parseDomain { domain := d }).length = 64 ∧
    ∀ c ∈ (parseDomain { domain := d }).data, c ∈ hexDigits := by
  refine ⟨parseDomain_root d, ?_, ?_⟩
  · rw [parseDomain_root d]
    show (hexCharsOf _).length = 64
    rw [hexCharsOf_length, keccak256_length]
  · rw [parseDomain_root d]
    intro c hc
    exact hexCharsOf_mem hc

/-- C2: for every domain and every non-empty (JavaScript-truthy) sub-domain,
`parseDomain` returns the hex encoding of the Keccak-256 digest of
(digest of the raw 32-byte root digest, then digest of the sub-domain),
the root digest being derived from the domain by the root rule. -/
theorem parseDomain_subDigest_spec (d s : String) (h : s ≠ "") :
    parseDomain { domain := d, subDomain := some s } =
      bytesToHex (keccak256
        (keccak256 (keccak256 (keccak256 (utf8Bytes "xlm") ++ keccak256 (utf8Bytes d))) ++
         keccak256 (utf8Bytes s))) := by
  simp [parseDomain, truthyOptStr, h, Hasher.create, Hasher.updateBytes, Hasher.updateStr,
        Hasher.digest, Hasher.hex]

theorem parseDomain_subDigest_spec_witness :
    (("pay" : String) ≠ "") ∧
    parseDomain { domain := "stellar", subDomain := some "pay" } =
      bytesToHex (keccak256
        (keccak256 (keccak256 (keccak256 (utf8Bytes "xlm") ++ keccak256 (utf8Bytes "stellar"))) ++
         keccak256 (utf8Bytes "pay"))) :=
  ⟨by decide, parseDomain_subDigest_spec "stellar" "pay" (by decide)⟩

/-- C9: the empty-string sub-domain is treated exactly as an absent one —
`parseDomain` returns the root digest, `searchDomain` behaves identically
(same outcome and same RPC trace), and its call-argument vector carries the
Record record-key symbol. -/
theorem emptySubDomain_treatedAsAbsent (d : String) (cfg : SorobanDomainsSDKParams)
    (env : RpcEnv) (cid : String) (hcid : cfg.vaultsContractId = some cid) (hne : cid ≠ "") :
    parseDomain { domain := d, subDomain := some "" } = parseDomain { domain := d } ∧
    searchDomain cfg env { domain := d, subDomain := some "" } =
      searchDomain cfg env { domain := d } ∧
    (searchDomain cfg env { domain := d, subDomain := some "" }).2 =
      [RpcCall.getAccount cfg.simulationAccount,
       RpcCall.simulateTransaction (mkTx cfg cid "record"
         [ScVal.scvVec [ScVal.scvSymbol (recordKeyStr RecordKey.Record),
            ScVal.scvBytes (hexToBytes (parseDomain { domain := d }))]])] := by
  have hp : parseDomain { domain := d, subDomain := some "" } = parseDomain { domain := d } := by
    simp [parseDomain, truthyOptStr]
  obtain ⟨simr⟩ := env
  refine ⟨hp, ?_, ?_⟩ <;>
    cases simr <;>
      simp [searchDomain, hcid, hne, hp, truthyOptStr, mkTx]

theorem emptySubDomain_treatedAsAbsent_witness :
    cfgBoth.vaultsContractId = some "CV" ∧ ("CV" : String) ≠ "" ∧
    (parseDomain { domain := "stellar", subDomain := some "" } =
        parseDomain { domain := "stellar" } ∧
      searchDomain cfgBoth (envOf .jsNull) { domain := "stellar", subDomain := some "" } =
        searchDomain cfgBoth (envOf .jsNull) { domain := "stellar" } ∧
      (searchDomain cfgBoth (envOf .jsNull) { domain := "stellar", subDomain := some "" }).2 =
        [RpcCall.getAccount cfgBoth.simulationAccount,
         RpcCall.simulateTransaction (mkTx cfgBoth "CV" "record"
           [ScVal.scvVec [ScVal.scvSymbol (recordKeyStr RecordKey.Record),
              ScVal.scvBytes (hexToBytes (parseDomain { domain := "stellar" }))]])]) :=
  ⟨rfl, by decide,
   emptySubDomain_treatedAsAbsent "stellar" cfgBoth (envOf .jsNull) "CV" rfl (by decide)⟩

/-- C8: `searchDomain` selects the record-key symbol by (truthy) presence of
the sub-domain argument — SubRecord with a given non-empty sub-domain,
Record without one — and the derived node bytes are the second element of
the two-element call-argument vector. -/
theorem recordKey_selection (cfg : SorobanDomainsSDKParams) (env : RpcEnv) (d s : String)
    (cid : String) (hcid : cfg.vaultsContractId = some cid) (hne : cid ≠ "") (hs : s ≠ "") :
    (searchDomain cfg env { domain := d, subDomain := some s }).2 =
      [RpcCall.getAccount cfg.simulationAccount,
       RpcCall.simulateTransaction (mkTx cfg cid "record"
         [ScVal.scvVec [ScVal.scvSymbol (recordKeyStr RecordKey.SubRecord),
            ScVal.scvBytes (hexToBytes (parseDomain { domain := d, subDomain := some s }))]])] ∧
    (searchDomain cfg env { domain := d }).2 =
      [RpcCall.getAccount cfg.simulationAccount,
       RpcCall.simulateTransaction (mkTx cfg cid "record"
         [ScVal.scvVec [ScVal.scvSymbol (recordKeyStr RecordKey.Record),
            ScVal.scvBytes (hexToBytes (parseDomain { domain := d }))]])] := by
  obtain ⟨simr⟩ := env
  constructor <;>
    cases simr <;>
      simp [searchDomain, hcid, hne, hs, truthyOptStr, mkTx]

theorem recordKey_selection_witness :
    cfgBoth.vaultsContractId = some "CV" ∧ ("CV" : String) ≠ "" ∧ ("pay" : String) ≠ "" ∧
    ((searchDomain cfgBoth (envOf .jsNull) { domain := "stellar", subDomain := some "pay" }).2 =
       [RpcCall.getAccount cfgBoth.simulationAccount,
        RpcCall.simulateTransaction (mkTx cfgBoth "CV" "record"
          [ScVal.scvVec [ScVal.scvSymbol (recordKeyStr RecordKey.SubRecord),
             ScVal.scvBytes (hexToBytes
               (parseDomain { domain := "stellar", subDomain := some "pay" }))]])] ∧
     (searchDomain cfgBoth (envOf .jsNull) { domain := "stellar" }).2 =
       [RpcCall.getAccount cfgBoth.simulationAccount,
        RpcCall.simulateTransaction (mkTx cfgBoth "CV" "record"
          [ScVal.scvVec [ScVal.scvSymbol (recordKeyStr RecordKey.Record),
             ScVal.scvBytes (hexToBytes (parseDomain { domain := "stellar" }))]])]) :=
  ⟨rfl, by decide, by decide,
   recordKey_selection cfgBoth (envOf .jsNull) "stellar" "pay" "CV" rfl (by decide) (by decide)⟩

/-- C5: when the required contract identifier is absent from configuration,
each operation fails before any network call — `searchDomain` on the
missing vaults contract identifier, the three storage operations on the
missing key/value database contract identifier — with an empty RPC trace
(no account fetch, no simulation). -/
theorem missingContractId_failsFast (cfg : SorobanDomainsSDKParams) (env : RpcEnv)
    (params : ParseDomainParams) (node key source : String) (value : String × JsValue)
    (hV : cfg.vaultsContractId = none) (hK : cfg.valuesDatabaseContractId = none) :
    searchDomain cfg env params =
      (.error (.errorMsg "Vault\x27s contract id was not provided"), []) ∧
    getDomainData cfg env node key =
      (.error (.errorMsg "KeyValue Database contract id was not provided"), []) ∧
    setDomainData cfg env node key value source =
      (.error (.errorMsg "KeyValue Database contract id was not provided"), []) ∧
    removeDomainData cfg env node key source =
      (.error (.errorMsg "KeyValue Database contract id was not provided"), []) := by
  simp [searchDomain, getDomainData, setDomainData, removeDomainData, hV, hK]

theorem missingContractId_failsFast_witness :
    cfgNone.vaultsContractId = none ∧ cfgNone.valuesDatabaseContractId = none ∧
    (searchDomain cfgNone (envErr "down") { domain := "stellar" } =
       (.error (.errorMsg "Vault\x27s contract id was not provided"), []) ∧
     getDomainData cfgNone (envErr "down") "ab" "k" =
       (.error (.errorMsg "KeyValue Database contract id was not provided"), []) ∧
     setDomainData cfgNone (envErr "down") "ab" "k" ("String", .jsString "v") "GSRC" =
       (.error (.errorMsg "KeyValue Database contract id was not provided"), []) ∧
     removeDomainData cfgNone (envErr "down") "ab" "k" "GSRC" =
       (.error (.errorMsg "KeyValue Database contract id was not provided"), [])) :=
  ⟨rfl, rfl,
   missingContractId_failsFast cfgNone (envErr "down") { domain := "stellar" } "ab" "k" "GSRC"
     ("String", .jsString "v") rfl rfl⟩

/-- C6: a value whose discriminant is outside Bytes, Number, String makes
`setDomainData` fail with DomainDataUnsupportedValueType with an empty RPC
trace, so before any simulation (or account fetch) is attempted. -/
theorem unsupportedValueType_failsBeforeRpc (cfg : SorobanDomainsSDKParams) (env : RpcEnv)
    (node key source : String) (value : String × JsValue) (cid : String)
    (hK : cfg.valuesDatabaseContractId = some cid) (hne : cid ≠ "")
    (h1 : value.1 ≠ "Bytes") (h2 : value.1 ≠ "Number") (h3 : value.1 ≠ "String") :
    setDomainData cfg env node key value source = (.error .unsupportedValueType, []) := by
  simp [setDomainData, hK, hne, encodeStorageValue, h1, h2, h3]

theorem unsupportedValueType_failsBeforeRpc_witness :
    cfgBoth.valuesDatabaseContractId = some "CK" ∧ ("CK" : String) ≠ "" ∧
    (("Map", JsValue.jsNull) : String × JsValue).1 ≠ "Bytes" ∧
    (("Map", JsValue.jsNull) : String × JsValue).1 ≠ "Number" ∧
    (("Map", JsValue.jsNull) : String × JsValue).1 ≠ "String" ∧
    setDomainData cfgBoth (envErr "down") "ab" "k" ("Map", JsValue.jsNull) "GSRC" =
      (.error .unsupportedValueType, []) :=
  ⟨rfl, by decide, by decide, by decide, by decide,
   unsupportedValueType_failsBeforeRpc cfgBoth (envErr "down") "ab" "k" "GSRC"
     ("Map", JsValue.jsNull) "CK" rfl (by decide) (by decide) (by decide) (by decide)⟩

/-- C7: whenever the RPC simulation reports an error, each of the four
simulating operations fails and surfaces the underlying error message
verbatim. -/
theorem simulationError_surfacedVerbatim (cfg : SorobanDomainsSDKParams) (env : RpcEnv)
    (params : ParseDomainParams) (node key source msg : String) (value : String × JsValue)
    (cidV cidK : String)
    (hV : cfg.vaultsContractId = some cidV) (hVne : cidV ≠ "")
    (hK : cfg.valuesDatabaseContractId = some cidK) (hKne : cidK ≠ "")
    (scv : ScVal) (henc : encodeStorageValue value = .ok scv)
    (henv : env.simResponse = .simError msg) :
    (searchDomain cfg env params).1 = .error (.errorMsg msg) ∧
    (getDomainData cfg env node key).1 = .error (.errorMsg msg) ∧
    (setDomainData cfg env node key value source).1 = .error (.errorMsg msg) ∧
    (removeDomainData cfg env node key source).1 = .error (.errorMsg msg) := by
  simp [searchDomain, getDomainData, setDomainData, removeDomainData,
        hV, hVne, hK, hKne, henc, henv]

theorem simulationError_surfacedVerbatim_witness :
    cfgBoth.vaultsContractId = some "CV" ∧ ("CV" : String) ≠ "" ∧
    cfgBoth.valuesDatabaseContractId = some "CK" ∧ ("CK" : String) ≠ "" ∧
    encodeStorageValue ("String", .jsString "v") =
      .ok (.scvVec [.scvSymbol "String", .scvString "v"]) ∧
    (envErr "host function failed").simResponse = .simError "host function failed" ∧
    ((searchDomain cfgBoth (envErr "host function failed") { domain := "stellar" }).1 =
       .error (.errorMsg "host function failed") ∧
     (getDomainData cfgBoth (envErr "host function failed") "ab" "k").1 =
       .error (.errorMsg "host function failed") ∧
     (setDomainData cfgBoth (envErr "host function failed") "ab" "k"
        ("String", .jsString "v") "GSRC").1 =
       .error (.errorMsg "host function failed") ∧
     (removeDomainData cfgBoth (envErr "host function failed") "ab" "k" "GSRC").1 =
       .error (.errorMsg "host function failed")) :=
  ⟨rfl, by decide, rfl, by decide, rfl, rfl,
   simulationError_surfacedVerbatim cfgBoth (envErr "host function failed")
     { domain := "stellar" } "ab" "k" "GSRC" "host function failed"
     ("String", .jsString "v") "CV" "CK" rfl (by decide) rfl (by decide)
     (.scvVec [.scvSymbol "String", .scvString "v"]) rfl rfl⟩

/-- C4: an empty/absent decoded simulation result (null or undefined) makes
`searchDomain` fail with Domain404Error and `getDomainData` fail with
DomainData404Error. -/
theorem emptyResult_raises404 (cfg : SorobanDomainsSDKParams) (env : RpcEnv)
    (params : ParseDomainParams) (node key : String) (cidV cidK : String)
    (hV : cfg.vaultsContractId = some cidV) (hVne : cidV ≠ "")
    (hK : cfg.valuesDatabaseContractId = some cidK) (hKne : cidK ≠ "")
    (native : JsValue) (hnative : native = JsValue.jsNull ∨ native = JsValue.jsUndefined)
    (henv : env.simResponse = .simSuccess native) :
    (searchDomain cfg env params).1 = .error .domain404 ∧
    (getDomainData cfg env node key).1 = .error .domainData404 := by
  rcases hnative with h | h <;> subst h <;>
    simp [searchDomain, getDomainData, hV, hVne, hK, hKne, henv,
          decodeRecordResult, jsFalsy]

theorem emptyResult_raises404_witness :
    cfgBoth.vaultsContractId = some "CV" ∧ ("CV" : String) ≠ "" ∧
    cfgBoth.valuesDatabaseContractId = some "CK" ∧ ("CK" : String) ≠ "" ∧
    (JsValue.jsNull = JsValue.jsNull ∨ JsValue.jsNull = JsValue.jsUndefined) ∧
    (envOf .jsNull).simResponse = .simSuccess .jsNull ∧
    ((searchDomain cfgBoth (envOf .jsNull) { domain := "stellar" }).1 = .error .domain404 ∧
     (getDomainData cfgBoth (envOf .jsNull) "ab" "k").1 = .error .domainData404) :=
  ⟨rfl, by decide, rfl, by decide, Or.inl rfl, rfl,
   emptyResult_raises404 cfgBoth (envOf .jsNull) { domain := "stellar" } "ab" "k"
     "CV" "CK" rfl (by decide) rfl (by decide) .jsNull (Or.inl rfl) rfl⟩

/-- C10: absence is detected by JavaScript falsiness of the decoded value —
every falsy decoded result (zero, the empty string and false included, not
only null/undefined) makes `searchDomain` raise Domain404Error and
`getDomainData` raise DomainData404Error, so a present-but-falsy value is
indistinguishable from an absent one. -/
theorem falsyResult_indistinguishableFromAbsent (cfg : SorobanDomainsSDKParams) (env : RpcEnv)
    (params : ParseDomainParams) (node key : String) (cidV cidK : String)
    (hV : cfg.vaultsContractId = some cidV) (hVne : cidV ≠ "")
    (hK : cfg.valuesDatabaseContractId = some cidK) (hKne : cidK ≠ "")
    (native : JsValue) (hf : jsFalsy native = true)
    (henv : env.simResponse = .simSuccess native) :
    ((searchDomain cfg env params).1 = .error .domain404 ∧
     (getDomainData cfg env node key).1 = .error .domainData404) ∧
    jsFalsy (.jsNumber 0) = true ∧ jsFalsy (.jsString "") = true ∧
    jsFalsy (.jsBool false) = true ∧ jsFalsy (.jsBigInt 0) = true := by
  refine ⟨⟨?_, ?_⟩, by decide, by decide, by decide, by decide⟩ <;>
    simp [searchDomain, getDomainData, hV, hVne, hK, hKne, henv,
          decodeRecordResult, hf]

theorem falsyResult_indistinguishableFromAbsent_witness :
    cfgBoth.vaultsContractId = some "CV" ∧ ("CV" : String) ≠ "" ∧
    cfgBoth.valuesDatabaseContractId = some "CK" ∧ ("CK" : String) ≠ "" ∧
    jsFalsy (.jsNumber 0) = true ∧
    (envOf (.jsNumber 0)).simResponse = .simSuccess (.jsNumber 0) ∧
    (((searchDomain cfgBoth (envOf (.jsNumber 0)) { domain := "stellar" }).1 =
        .error .domain404 ∧
      (getDomainData cfgBoth (envOf (.jsNumber 0)) "ab" "k").1 = .error .domainData404) ∧
     jsFalsy (.jsNumber 0) = true ∧ jsFalsy (.jsString "") = true ∧
     jsFalsy (.jsBool false) = true ∧ jsFalsy (.jsBigInt 0) = true) :=
  ⟨rfl, by decide, rfl, by decide, by decide, rfl,
   falsyResult_indistinguishableFromAbsent cfgBoth (envOf (.jsNumber 0)) { domain := "stellar" }
     "ab" "k" "CV" "CK" rfl (by decide) rfl (by decide) (.jsNumber 0) (by decide) rfl⟩

/-- C3: when the decoded simulation result is a two-element vector whose
first element is the literal string tag Domain, `searchDomain` resolves to
the Domain variant with all six fields populated — byte fields hex-encoded,
integer-like fields rendered as decimal strings; with any other first
element it resolves to the SubDomain variant with its four fields. -/
theorem recordVariant_decoding (cfg : SorobanDomainsSDKParams) (params : ParseDomainParams)
    (cidV : String) (hV : cfg.vaultsContractId = some cidV) (hVne : cidV ≠ "")
    (env1 env2 : RpcEnv) (fieldsD fieldsS : List (String × JsValue))
    (nb ob nb2 pb : List Nat) (addr1 addr2 : JsValue) (e s c s2 : Int) (tag : JsValue)
    (henv1 : env1.simResponse =
      .simSuccess (.jsArray [.jsString "Domain", .jsObject fieldsD]))
    (hn : fieldsD.lookup "node" = some (.jsBuffer nb))
    (ho : fieldsD.lookup "owner" = some (.jsBuffer ob))
    (ha : fieldsD.lookup "address" = some addr1)
    (he : fieldsD.lookup "exp_date" = some (.jsBigInt e))
    (hs : fieldsD.lookup "snapshot" = some (.jsBigInt s))
    (hc : fieldsD.lookup "collateral" = some (.jsBigInt c))
    (henv2 : env2.simResponse = .simSuccess (.jsArray [tag, .jsObject fieldsS]))
    (htag : strictEqDomainTag tag = false)
    (hn2 : fieldsS.lookup "node" = some (.jsBuffer nb2))
    (hp2 : fieldsS.lookup "parent" = some (.jsBuffer pb))
    (ha2 : fieldsS.lookup "address" = some addr2)
    (hs2 : fieldsS.lookup "snapshot" = some (.jsBigInt s2)) :
    (searchDomain cfg env1 params).1 = .ok (.domain
      { node := bytesToHex nb, owner := bytesToHex ob, address := addr1,
        exp_date := toString e, snapshot := toString s, collateral := toString c }) ∧
    (searchDomain cfg env2 params).1 = .ok (.subDomain
      { node := bytesToHex nb2, parent := bytesToHex pb, address := addr2,
        snapshot := toString s2 }) := by
  refine ⟨?_, ?_⟩
  · simp [searchDomain, hV, hVne, henv1, decodeRecordResult, jsFalsy, jsIndex,
          strictEqDomainTag, jsGetFieldE, bufToHexE, decimalToStringE,
          hn, ho, ha, he, hs, hc, Bind.bind, Except.bind]
  · simp [searchDomain, hV, hVne, henv2, decodeRecordResult, jsFalsy, jsIndex,
          htag, jsGetFieldE, bufToHexE, decimalToStringE,
          hn2, hp2, ha2, hs2, Bind.bind, Except.bind]

/-- Concrete Domain-variant field object for the C3 witness. -/
def fieldsDomainW : List (String × JsValue) :=
  [("node", .jsBuffer [1, 2]), ("owner", .jsBuffer [3, 4]),
   ("address", .jsString "GADDR"), ("exp_date", .jsBigInt 1717171717),
   ("snapshot", .jsBigInt 55), ("collateral", .jsBigInt 9000)]

/-- Concrete SubDomain-variant field object for the C3 witness. -/
def fieldsSubW : List (String × JsValue) :=
  [("node", .jsBuffer [7]), ("parent", .jsBuffer [8]),
   ("address", .jsString "GSUB"), ("snapshot", .jsBigInt 3)]

theorem recordVariant_decoding_witness :
    cfgBoth.vaultsContractId = some "CV" ∧ ("CV" : String) ≠ "" ∧
    (envOf (.jsArray [.jsString "Domain", .jsObject fieldsDomainW])).simResponse =
      .simSuccess (.jsArray [.jsString "Domain", .jsObject fieldsDomainW]) ∧
    fieldsDomainW.lookup "node" = some (.jsBuffer [1, 2]) ∧
    fieldsDomainW.lookup "owner" = some (.jsBuffer [3, 4]) ∧
    fieldsDomainW.lookup "address" = some (.jsString "GADDR") ∧
    fieldsDomainW.lookup "exp_date" = some (.jsBigInt 1717171717) ∧
    fieldsDomainW.lookup "snapshot" = some (.jsBigInt 55) ∧
    fieldsDomainW.lookup "collateral" = some (.jsBigInt 9000) ∧
    (envOf (.jsArray [.jsString "SubDomain", .jsObject fieldsSubW])).simResponse =
      .simSuccess (.jsArray [.jsString "SubDomain", .jsObject fieldsSubW]) ∧
    strictEqDomainTag (.jsString "SubDomain") = false ∧
    fieldsSubW.lookup "node" = some (.jsBuffer [7]) ∧
    fieldsSubW.lookup "parent" = some (.jsBuffer [8]) ∧
    fieldsSubW.lookup "address" = some (.jsString "GSUB") ∧
    fieldsSubW.lookup "snapshot" = some (.jsBigInt 3) ∧
    ((searchDomain cfgBoth (envOf (.jsArray [.jsString "Domain", .jsObject fieldsDomainW]))
        { domain := "stellar" }).1 = .ok (.domain
      { node := bytesToHex [1, 2], owner := bytesToHex [3, 4], address := .jsString "GADDR",
        exp_date := toString (1717171717 : Int), snapshot := toString (55 : Int),
        collateral := toString (9000 : Int) }) ∧
     (searchDomain cfgBoth (envOf (.jsArray [.jsString "SubDomain", .jsObject fieldsSubW]))
        { domain := "stellar" }).1 = .ok (.subDomain
      { node := bytesToHex [7], parent := bytesToHex [8], address := .jsString "GSUB",
        snapshot := toString (3 : Int) })) :=
  ⟨rfl, by decide, rfl, rfl, rfl, rfl, rfl, rfl, rfl, rfl, by decide, rfl, rfl, rfl, rfl,
   recordVariant_decoding cfgBoth { domain := "stellar" } "CV" rfl (by decide)
     (envOf (.jsArray [.jsString "Domain", .jsObject fieldsDomainW]))
     (envOf (.jsArray [.jsString "SubDomain", .jsObject fieldsSubW]))
     fieldsDomainW fieldsSubW [1, 2] [3, 4] [7] [8] (.jsString "GADDR") (.jsString "GSUB")
     1717171717 55 9000 3 (.jsString "SubDomain")
     rfl rfl rfl rfl rfl rfl rfl rfl (by decide) rfl rfl rfl rfl⟩
